import Mathlib

/-!
Verification of the model-card component (`src/components/model_card/model_card.js`).

The component is a single JavaScript render function.  We shallowly embed the
parts with decision logic:

* `formatMetricValue` — the pure metric formatter (switch on the format kind);
* the metric-row construction loop (`metrics.forEach` building `metricRowsHtml`);
* the selection handler `handleSelect` and the `onclick` / `onkeydown` wiring;
* the teardown closure returned to the host.

JavaScript values relevant to this component (undefined, null, numbers,
strings) are embedded as `JSValue`.  Numbers are idealised as exact rationals;
`NaN` is represented by `none` in `Option ℚ` wherever a numeric coercion can
fail.  `Number.prototype.toFixed` is modelled after the ECMAScript algorithm:
take the sign apart, round `|x|·10^f` to the nearest integer with ties going
up, and print with `f` forced decimal digits.  DOM primitives
(`appendChild` / `removeChild`), which the spec treats as external
collaborators, are modelled as operations on the mount point's list of
children, with node identity made explicit.
-/

/-- A JavaScript value as used by this component: `undefined`, `null`,
a number (idealised as an exact rational; `NaN` arises only through `Number`
coercion and is tracked separately), or a string. -/
inductive JSValue where
  | undef : JSValue
  | null : JSValue
  | num : ℚ → JSValue
  | str : String → JSValue
deriving DecidableEq, Repr

/-- JavaScript truthiness: `undefined`, `null`, `0` and `""` are falsy. -/
def truthy : JSValue → Bool
  | JSValue.undef => false
  | JSValue.null => false
  | JSValue.num q => decide (q ≠ 0)
  | JSValue.str s => decide (s ≠ "")

/-- Whether a value is nullish (`undefined` or `null`), as tested by `??`. -/
def nullish : JSValue → Bool
  | JSValue.undef => true
  | JSValue.null => true
  | _ => false

/-- JavaScript `a || b`: the first operand when truthy, otherwise the second. -/
def jsOr (a b : JSValue) : JSValue := if truthy a then a else b

/-- JavaScript `a ?? b`: the first operand unless it is nullish. -/
def jsCoalesce (a b : JSValue) : JSValue := if nullish a then b else a

/-- Numeric value of a digit character. -/
def digitVal (c : Char) : ℕ := c.toNat - 48

/-- Value of a digit string read in base 10. -/
def digitsToNat (cs : List Char) : ℕ := cs.foldl (fun a c => 10 * a + digitVal c) 0

/-- Model of JavaScript string-to-number conversion for plain decimal
literals: trimmed empty string is `0`; an optional sign, integer digits and an
optional fraction parse exactly; anything else is `NaN` (`none`). -/
def parseJSNumber (s : String) : Option ℚ :=
  let cs := s.trim.toList
  if cs.isEmpty then some 0
  else
    let sgn : ℚ := match cs with
      | '-' :: _ => -1
      | _ => 1
    let body : List Char := match cs with
      | '-' :: r => r
      | '+' :: r => r
      | r => r
    let intPart := body.takeWhile Char.isDigit
    let tail := body.dropWhile Char.isDigit
    match tail with
    | [] =>
        if intPart.isEmpty then none
        else some (sgn * (digitsToNat intPart : ℚ))
    | '.' :: fracPart =>
        if fracPart.all Char.isDigit && !(intPart.isEmpty && fracPart.isEmpty) then
          some (sgn * ((digitsToNat intPart : ℚ) +
            (digitsToNat fracPart : ℚ) / (10 : ℚ) ^ fracPart.length))
        else none
    | _ => none

/-- JavaScript `Number(v)` coercion; `none` is `NaN`. -/
def jsToNumber : JSValue → Option ℚ
  | JSValue.undef => none
  | JSValue.null => some 0
  | JSValue.num q => some q
  | JSValue.str s => parseJSNumber s

/-- Rendering of a number inside a template literal / `String(·)`.  Integers
print without a decimal point; other rationals keep Lean's exact notation
(the claims never compare a non-integer conversion against a literal). -/
def jsNumToString (q : ℚ) : String :=
  if q.den = 1 then toString q.num else toString q

/-- JavaScript string conversion as performed by a template literal. -/
def templateStr : JSValue → String
  | JSValue.undef => "undefined"
  | JSValue.null => "null"
  | JSValue.num q => jsNumToString q
  | JSValue.str s => s

/-- Source expression `String(value ?? "")` from the STRING and default
branches of `formatMetricValue`. -/
def stringCoerce (value : JSValue) : String :=
  templateStr (jsCoalesce value (JSValue.str ""))

/-- ECMAScript `toFixed` on an exact rational: split off the sign, round
`|q|·10^f` to the nearest integer (ties up), print with `f` fraction digits. -/
def toFixedQ (q : ℚ) (f : ℕ) : String :=
  let sgn : String := if q < 0 then "-" else ""
  let n : ℕ := (⌊|q| * (10 : ℚ) ^ f + 1 / 2⌋).toNat
  if f = 0 then sgn ++ toString n
  else
    let frac := toString (n % 10 ^ f)
    let pad := String.mk (List.replicate (f - frac.length) '0')
    sgn ++ toString (n / 10 ^ f) ++ "." ++ pad ++ frac

/-- `toFixed` lifted to a possibly-`NaN` number: `NaN.toFixed(f)` is `"NaN"`. -/
def toFixedJS : Option ℚ → ℕ → String
  | none, _ => "NaN"
  | some q, f => toFixedQ q f

/-- `Math.abs` on a possibly-`NaN` number. -/
def jsAbs : Option ℚ → Option ℚ := Option.map (fun q => |q|)

/-- JavaScript `a >= c` where `a` may be `NaN` (always false then). -/
def jsGe (a : Option ℚ) (c : ℚ) : Bool :=
  match a with
  | some q => decide (c ≤ q)
  | none => false

/-- JavaScript division of a possibly-`NaN` number by a nonzero constant. -/
def jsDiv (a : Option ℚ) (c : ℚ) : Option ℚ := Option.map (fun q => q / c) a

/-- Embedding of the source's `formatMetricValue(value, format)`:
`numValue = Number(value ?? 0)`, then a switch on `format` with cases
`"STRING"`, `"PERCENT"`, `"DECIMAL"`, `"DOLLAR"` and a default that behaves
like the STRING case. -/
def formatMetricValue (value format : JSValue) : String :=
  let numValue : Option ℚ := jsToNumber (jsCoalesce value (JSValue.num 0))
  if format = JSValue.str "STRING" then
    stringCoerce value
  else if format = JSValue.str "PERCENT" then
    if numValue = some 0 then "" else toFixedJS numValue 2 ++ "%"
  else if format = JSValue.str "DECIMAL" then
    toFixedJS numValue 2
  else if format = JSValue.str "DOLLAR" then
    if numValue = some 0 then "$0.0"
    else
      let absValue := jsAbs numValue
      if jsGe absValue 1000000 then "$" ++ toFixedJS (jsDiv numValue 1000000) 1 ++ "M"
      else if jsGe absValue 1000 then "$" ++ toFixedJS (jsDiv numValue 1000) 1 ++ "K"
      else "$" ++ toFixedJS numValue 1
  else
    stringCoerce value

/-- The DOLLAR rule exactly as the specification words it: zero is the literal
`$0.0`; magnitudes at least a million are divided by a million, one decimal,
suffix `M`; magnitudes at least a thousand are divided by a thousand, one
decimal, suffix `K`; otherwise the one-decimal value; the number that is
rendered keeps the sign of `v`, only the threshold test takes `|v|`. -/
def spec_DOLLAR (q : ℚ) : String :=
  if q = 0 then "$0.0"
  else if 1000000 ≤ |q| then "$" ++ toFixedQ (q / 1000000) 1 ++ "M"
  else if 1000 ≤ |q| then "$" ++ toFixedQ (q / 1000) 1 ++ "K"
  else "$" ++ toFixedQ q 1

/-- The PERCENT rule exactly as the specification words it: zero is suppressed
to the empty string, otherwise the two-decimal value followed by `%`. -/
def spec_PERCENT (q : ℚ) : String :=
  if q = 0 then "" else toFixedQ q 2 ++ "%"

/-- Styling constant `rowPadding` from the source. -/
def rowPadding : String := "6px 0"

/-- Styling constant `labelSize` from the source. -/
def labelSize : String := ".875rem"

/-- Styling constant `labelColor` from the source. -/
def labelColor : String := "#374151"

/-- Styling constant `valueSize` from the source. -/
def valueSize : String := "1rem"

/-- Styling constant `valueWeight` from the source. -/
def valueWeight : String := "400"

/-- Styling constant `valueColor` from the source. -/
def valueColor : String := "#111827"

/-- A well-formed metric entry: an object with `label`, `value` and `format`
properties, any of which may be `undefined` (missing) or `null`. -/
structure MetricEntry where
  label : JSValue
  value : JSValue
  format : JSValue
deriving DecidableEq, Repr

/-- The HTML text of one metric row, as appended by the body of the
`metrics.forEach` loop: border class and style from the terminal-row test,
the label via `metric.label || ""`, the value via `formatMetricValue`. -/
def metricRowCore (label value format : JSValue) (isLast : Bool) : String :=
  let borderClass := if isLast then "mc-row-last" else ""
  let borderStyle :=
    if isLast then "border-bottom:none;" else "border-bottom:1px solid rgba(0,0,0,.08);"
  let formattedValue := formatMetricValue value format
  "\n      <div class=\"" ++ borderClass ++
    "\" style=\"display:flex;justify-content:space-between;align-items:center;\n                                        padding:" ++
    rowPadding ++ ";" ++ borderStyle ++
    "\">\n        <span style=\"font-size:" ++ labelSize ++ ";color:" ++ labelColor ++
    ";\">" ++ templateStr (jsOr label (JSValue.str "")) ++
    "</span>\n        <span style=\"font-size:" ++ valueSize ++ ";font-weight:" ++
    valueWeight ++ ";color:" ++ valueColor ++ ";\">\n          " ++ formattedValue ++
    "\n        </span>\n      </div>\n    "

/-- Row HTML for a well-formed entry. -/
def metricRowHtml (metric : MetricEntry) (isLast : Bool) : String :=
  metricRowCore metric.label metric.value metric.format isLast

/-- Embedding of the `metrics.forEach` accumulation into `metricRowsHtml`:
a left fold over the index-tagged entries, appending one row per entry, where
`isLast` is `index === metrics.length - 1`. -/
def metricRowsHtml (metrics : List MetricEntry) : String :=
  metrics.enum.foldl (fun acc p => acc ++ metricRowHtml p.2 (p.1 == metrics.length - 1)) ""

/-- The same rows as a list, one string per input entry, in input order. -/
def metricRows (metrics : List MetricEntry) : List String :=
  metrics.enum.map (fun p => metricRowHtml p.2 (p.1 == metrics.length - 1))

/-- An element of the raw `metrics` array as JavaScript sees it: possibly
`undefined` or `null` rather than an object. -/
inductive JSEntry where
  | undef : JSEntry
  | null : JSEntry
  | obj : MetricEntry → JSEntry
deriving DecidableEq, Repr

/-- JavaScript property access `m.field`: a TypeError when the receiver is
nullish, otherwise the (possibly `undefined`) property value. -/
def jsProp (m : JSEntry) (f : MetricEntry → JSValue) : Except String JSValue :=
  match m with
  | JSEntry.obj e => Except.ok (f e)
  | _ => Except.error "TypeError"

/-- The `forEach` body at the JavaScript level: property reads in source
order (`metric.value`, `metric.format`, then `metric.label` in the template),
each of which can raise a TypeError on a nullish entry. -/
def metricRowHtmlJS (metric : JSEntry) (isLast : Bool) : Except String String := do
  let v ← jsProp metric MetricEntry.value
  let fmt ← jsProp metric MetricEntry.format
  let lbl ← jsProp metric MetricEntry.label
  pure (metricRowCore lbl v fmt isLast)

/-- The whole row-building loop at the JavaScript level: the first entry
whose property access raises aborts the loop and propagates the error. -/
def metricRowsHtmlJS (metrics : List JSEntry) : Except String String :=
  metrics.enum.foldlM
    (fun acc p => (metricRowHtmlJS p.2 (p.1 == metrics.length - 1)).map (fun r => acc ++ r)) ""

/-- The part of the data payload the selection handler reads. -/
structure CardData where
  id : JSValue
  name : JSValue
deriving DecidableEq, Repr

/-- An outbound signal to the host: `setStateValue` (persistent) or
`setTriggerValue` (one-shot), with its key and value. -/
inductive Emission where
  | stateValue : String → JSValue → Emission
  | triggerValue : String → JSValue → Emission
deriving DecidableEq, Repr

/-- Source expression `m.id || m.name || null` from `handleSelect`. -/
def selectionToken (m : CardData) : JSValue :=
  jsOr (jsOr m.id m.name) JSValue.null

/-- Embedding of `handleSelect`: emit the persistent `"selected"` update and
then the one-shot `"clicked"` trigger, both carrying the selection token. -/
def handleSelect (m : CardData) : List Emission :=
  [Emission.stateValue "selected" (selectionToken m),
   Emission.triggerValue "clicked" (selectionToken m)]

/-- The `onclick` wiring: `cardElement.onclick = handleSelect`. -/
def cardOnClick (m : CardData) : List Emission := handleSelect m

/-- A keyboard event, reduced to the `key` field the handler reads. -/
structure KeyEvent where
  key : String
deriving DecidableEq, Repr

/-- Embedding of the `onkeydown` handler: for `"Enter"` or `" "` (Space) it
calls `e.preventDefault()` (first component `true`) and runs `handleSelect`;
for any other key it does neither. -/
def cardOnKeydown (m : CardData) (e : KeyEvent) : Bool × List Emission :=
  if e.key == "Enter" || e.key == " " then (true, handleSelect m) else (false, [])

/-- The selection token as the specification words it: `id` when truthy,
else `name` when truthy, else the null sentinel. -/
def specSelectionToken (m : CardData) : JSValue :=
  if truthy m.id then m.id
  else if truthy m.name then m.name
  else JSValue.null

/-- A DOM node, reduced to what the teardown claim needs: an identity (DOM
nodes are compared by object identity) and its HTML content. -/
structure DOMNode where
  nodeId : ℕ
  html : String
deriving DecidableEq, Repr

/-- Model of `parent.appendChild(node)` on the parent's child list. -/
def appendChild (children : List DOMNode) (node : DOMNode) : List DOMNode :=
  children ++ [node]

/-- Model of `parent.removeChild(node)`: remove the first (by identity, the
only) occurrence of `node`. -/
def removeChild (children : List DOMNode) (node : DOMNode) : List DOMNode :=
  children.erase node

/-- The mount-and-teardown shape of the component: the render pass appends
the freshly created wrapper `node` to the mount point's children and returns
the teardown closure `() => parentElement.removeChild(node)`, which captures
exactly that node. -/
def renderCard (children : List DOMNode) (node : DOMNode) :
    List DOMNode × (List DOMNode → List DOMNode) :=
  (appendChild children node, fun current => removeChild current node)

example : formatMetricValue (JSValue.num 1500) (JSValue.str "DOLLAR") = "$1.5K" := by
  with_unfolding_all rfl

example : formatMetricValue (JSValue.num 0) (JSValue.str "PERCENT") = "" := by
  with_unfolding_all rfl

example : formatMetricValue (JSValue.num (25/2)) (JSValue.str "PERCENT") = "12.50%" := by
  with_unfolding_all rfl

example : formatMetricValue (JSValue.num (-2500000)) (JSValue.str "DOLLAR") = "$-2.5M" := by
  with_unfolding_all rfl

example : formatMetricValue JSValue.null (JSValue.str "DOLLAR") = "$0.0" := by
  with_unfolding_all rfl

example : formatMetricValue (JSValue.num 3) (JSValue.str "DECIMAL") = "3.00" := by
  with_unfolding_all rfl

example : formatMetricValue (JSValue.str "abc") (JSValue.str "DECIMAL") = "NaN" := by
  with_unfolding_all rfl

/-- C1: for every value and kind DOLLAR the formatter returns `$0.0` at zero
(also for absent/null values), `$…M` with one decimal for magnitudes at least
a million, `$…K` with one decimal for magnitudes at least a thousand, and the
one-decimal `$…` value otherwise, preserving the sign of the value (the
absolute value is used only in the threshold tests). -/
theorem dollar_formatting_follows_spec (q : ℚ) :
    formatMetricValue (JSValue.num q) (JSValue.str "DOLLAR") = spec_DOLLAR q ∧
    formatMetricValue JSValue.null (JSValue.str "DOLLAR") = "$0.0" ∧
    formatMetricValue JSValue.undef (JSValue.str "DOLLAR") = "$0.0" := by
  refine ⟨?_, by with_unfolding_all rfl, by with_unfolding_all rfl⟩
  simp [formatMetricValue, spec_DOLLAR, jsCoalesce, nullish, jsToNumber, jsAbs, jsGe,
    jsDiv, toFixedJS]

/-- C2: for every value and kind PERCENT the formatter suppresses zero (also
absent/null values, which coerce to zero) to the empty string and otherwise
renders the value to exactly two decimals followed by `%`. -/
theorem percent_formatting_follows_spec (q : ℚ) :
    formatMetricValue (JSValue.num q) (JSValue.str "PERCENT") = spec_PERCENT q ∧
    formatMetricValue JSValue.null (JSValue.str "PERCENT") = "" ∧
    formatMetricValue JSValue.undef (JSValue.str "PERCENT") = "" := by
  refine ⟨?_, by with_unfolding_all rfl, by with_unfolding_all rfl⟩
  simp [formatMetricValue, spec_PERCENT, jsCoalesce, nullish, jsToNumber, toFixedJS]

/-- C3: the formatter is total — it is a function into `String`, so every
`(value, kind)` pair yields a string — and absent (`undefined`) and `null`
values behave identically for every kind, coercing to `0` for the numeric
kinds PERCENT, DECIMAL and DOLLAR and to the empty string for STRING. -/
theorem formatter_total_and_coerces (v k : JSValue) :
    (∃ s : String, formatMetricValue v k = s) ∧
    formatMetricValue JSValue.null k = formatMetricValue JSValue.undef k ∧
    formatMetricValue JSValue.null (JSValue.str "PERCENT")
      = formatMetricValue (JSValue.num 0) (JSValue.str "PERCENT") ∧
    formatMetricValue JSValue.null (JSValue.str "DECIMAL")
      = formatMetricValue (JSValue.num 0) (JSValue.str "DECIMAL") ∧
    formatMetricValue JSValue.null (JSValue.str "DOLLAR")
      = formatMetricValue (JSValue.num 0) (JSValue.str "DOLLAR") ∧
    formatMetricValue JSValue.null (JSValue.str "STRING") = "" ∧
    formatMetricValue JSValue.undef (JSValue.str "STRING") = "" := by
  refine ⟨⟨_, rfl⟩, ?_, by with_unfolding_all rfl, by with_unfolding_all rfl,
    by with_unfolding_all rfl, by with_unfolding_all rfl, by with_unfolding_all rfl⟩
  simp [formatMetricValue, stringCoerce, jsCoalesce, nullish, jsToNumber, templateStr]

/-- C7: every kind other than PERCENT, DECIMAL and DOLLAR — the STRING kind
itself, an absent kind, a numeric kind, or any unrecognised string — makes
the formatter return `String(value ?? "")`: the textual form of the value, or
the empty string for absent/null values; no kind is an error. -/
theorem unknown_kind_string_passthrough (v k : JSValue)
    (h1 : k ≠ JSValue.str "PERCENT") (h2 : k ≠ JSValue.str "DECIMAL")
    (h3 : k ≠ JSValue.str "DOLLAR") :
    formatMetricValue v k = stringCoerce v ∧
    formatMetricValue JSValue.null k = "" ∧
    formatMetricValue JSValue.undef k = "" := by
  by_cases hk : k = JSValue.str "STRING" <;>
    simp [formatMetricValue, hk, h1, h2, h3, stringCoerce, jsCoalesce, nullish, templateStr]

/-- Concrete instance of `unknown_kind_string_passthrough` at an unrecognised
kind `"SCORE"` and the value `7`. -/
theorem unknown_kind_string_passthrough_witness :
    formatMetricValue (JSValue.num 7) (JSValue.str "SCORE") = stringCoerce (JSValue.num 7) ∧
    formatMetricValue JSValue.null (JSValue.str "SCORE") = "" ∧
    formatMetricValue JSValue.undef (JSValue.str "SCORE") = "" :=
  unknown_kind_string_passthrough (JSValue.num 7) (JSValue.str "SCORE")
    (by decide) (by decide) (by decide)

/-- C4: every activation runs `handleSelect`, which emits exactly two
signals — the persistent `"selected"` state update followed by the one-shot
`"clicked"` trigger — both carrying the same selection token: `id` when
truthy, else `name` when truthy, else the null sentinel.  The pointer path
(`onclick`) is exactly `handleSelect`, so repeated activations of an
already-selected card emit the same two signals again. -/
theorem activation_emits_selected_and_clicked (m : CardData) :
    handleSelect m =
      [Emission.stateValue "selected" (specSelectionToken m),
       Emission.triggerValue "clicked" (specSelectionToken m)] ∧
    cardOnClick m = handleSelect m ∧
    (handleSelect m).length = 2 := by
  refine ⟨?_, rfl, rfl⟩
  by_cases ha : truthy m.id <;> by_cases hb : truthy m.name <;>
    simp [handleSelect, selectionToken, specSelectionToken, jsOr, ha, hb]

/-- C5: the `"Enter"` and `" "` (Space) keys make the keyboard handler call
`preventDefault` and run exactly the pointer activation (`onclick`); any
other key triggers no selection action and no `preventDefault`. -/
theorem keyboard_activation_matches_click (m : CardData) (e : KeyEvent) :
    ((e.key = "Enter" ∨ e.key = " ") → cardOnKeydown m e = (true, cardOnClick m)) ∧
    (e.key ≠ "Enter" → e.key ≠ " " → cardOnKeydown m e = (false, [])) := by
  constructor
  · rintro (h | h) <;> simp [cardOnKeydown, cardOnClick, h]
  · intro h1 h2
    simp [cardOnKeydown, h1, h2]

/-- Concrete instance of `keyboard_activation_matches_click`: Enter activates
with suppression, `"x"` does nothing. -/
theorem keyboard_activation_matches_click_witness :
    cardOnKeydown { id := JSValue.str "m1", name := JSValue.str "A" } { key := "Enter" } =
      (true, cardOnClick { id := JSValue.str "m1", name := JSValue.str "A" }) ∧
    cardOnKeydown { id := JSValue.str "m1", name := JSValue.str "A" } { key := "x" } =
      (false, []) :=
  ⟨(keyboard_activation_matches_click { id := JSValue.str "m1", name := JSValue.str "A" }
      { key := "Enter" }).1 (Or.inl rfl),
   (keyboard_activation_matches_click { id := JSValue.str "m1", name := JSValue.str "A" }
      { key := "x" }).2 (by decide) (by decide)⟩

/-- C6: the row builder is an order-preserving map over the metrics list:
the accumulated HTML is the join of one row string per entry, there are
exactly as many rows as entries, and the `i`-th row is built from the `i`-th
entry (its label and its value formatted by the formatter), with the
terminal-row flag set exactly at the last index. -/
theorem metric_rows_order_preserving (metrics : List MetricEntry) :
    metricRowsHtml metrics = String.join (metricRows metrics) ∧
    (metricRows metrics).length = metrics.length ∧
    ∀ i : ℕ, (metricRows metrics)[i]? =
      (metrics[i]?).map (fun e => metricRowHtml e (i == metrics.length - 1)) := by
  refine ⟨?_, ?_, ?_⟩
  · simp only [metricRowsHtml, metricRows, String.join, List.foldl_map]
  · simp [metricRows, List.enum_length]
  · intro i
    cases h : metrics[i]? <;>
      simp [metricRows, List.getElem?_map, List.getElem?_enum, Option.map_map, h,
        Function.comp]

/-- The loop body on a well-formed (object) entry never raises: it reads the
three properties and builds the same row as the total-level builder. -/
theorem metricRowHtmlJS_obj (e : MetricEntry) (b : Bool) :
    metricRowHtmlJS (JSEntry.obj e) b = Except.ok (metricRowHtml e b) := rfl

/-- Mapping over a successful `Except` computation. -/
theorem except_map_ok {ε α β : Type} (f : α → β) (x : α) :
    Except.map f (Except.ok x : Except ε α) = Except.ok (f x) := rfl

/-- Sequencing after a successful `Except` computation. -/
theorem except_ok_bind {ε α β : Type} (x : α) (g : α → Except ε β) :
    (Except.ok x : Except ε α) >>= g = g x := rfl

/-- The row loop over object-only entries is the `Except.ok` image of the
total fold. -/
theorem rowsJS_foldlM_ok (n : ℕ) (l : List (ℕ × MetricEntry)) :
    ∀ acc : String,
      List.foldlM
        (fun acc p => Except.map (fun r => acc ++ r) (metricRowHtmlJS p.2 (p.1 == n)))
        acc (l.map (Prod.map id JSEntry.obj))
      = Except.ok (l.foldl (fun acc p => acc ++ metricRowHtml p.2 (p.1 == n)) acc) := by
  induction l with
  | nil => intro acc; rfl
  | cons x xs ih =>
      intro acc
      obtain ⟨i, e⟩ := x
      simp only [List.map_cons, List.foldlM_cons, List.foldl_cons, Prod.map, id_eq,
        metricRowHtmlJS_obj, except_map_ok, except_ok_bind]
      exact ih _

/-- C8 (amended): a metrics list whose entries are objects — with any of
`label`, `value`, `format` possibly missing — renders without error, the
missing pieces defaulting (label `""` via `|| ""`, value through the total
formatter, missing format through the STRING-like default branch); but an
entry that is itself `null` is not tolerated (see `null_entry_raises`). -/
theorem object_entries_tolerated (metrics : List MetricEntry) :
    metricRowsHtmlJS (metrics.map JSEntry.obj) = Except.ok (metricRowsHtml metrics) ∧
    formatMetricValue JSValue.undef JSValue.undef = "" ∧
    templateStr (jsOr JSValue.undef (JSValue.str "")) = "" ∧
    metricRowHtmlJS
        (JSEntry.obj { label := JSValue.undef, value := JSValue.undef, format := JSValue.undef })
        true
      = Except.ok
          (metricRowHtml { label := JSValue.undef, value := JSValue.undef, format := JSValue.undef }
            true) := by
  refine ⟨?_, by with_unfolding_all rfl, rfl, rfl⟩
  simp only [metricRowsHtmlJS, metricRowsHtml, List.enum, List.enumFrom_map, List.length_map]
  exact rowsJS_foldlM_ok (metrics.length - 1) (List.enumFrom 0 metrics) ""

/-- C8 counterexample: a metrics list containing an entry that is itself
`null` is not tolerated — the first property access on it raises a TypeError
that propagates out of the render pass. -/
theorem null_entry_raises :
    metricRowsHtmlJS [JSEntry.null] = Except.error "TypeError" := rfl

/-- C9: the teardown action returned by the render pass removes exactly the
subtree node this instance appended: applied to the post-mount child list it
restores the previous children, the detached node is gone, and every other
concurrently mounted sibling (all of `children`) is untouched. -/
theorem teardown_detaches_exactly_its_subtree (children : List DOMNode) (node : DOMNode)
    (h : node ∉ children) :
    (renderCard children node).1 = children ++ [node] ∧
    (renderCard children node).2 (renderCard children node).1 = children ∧
    node ∉ (renderCard children node).2 (renderCard children node).1 := by
  have key : (children ++ [node]).erase node = children := by
    rw [List.erase_append_right [node] h, List.erase_cons_head]
    exact List.append_nil children
  refine ⟨rfl, ?_, ?_⟩
  · simpa [renderCard, appendChild, removeChild] using key
  · simp only [renderCard, appendChild, removeChild]
    rw [key]
    exact h

/-- Concrete instance of `teardown_detaches_exactly_its_subtree`: tearing
down a card mounted after a sibling leaves exactly the sibling. -/
theorem teardown_detaches_exactly_its_subtree_witness :
    ((⟨1, "card"⟩ : DOMNode) ∉ ([⟨0, "other"⟩] : List DOMNode)) ∧
    (renderCard [⟨0, "other"⟩] ⟨1, "card"⟩).2 (renderCard [⟨0, "other"⟩] ⟨1, "card"⟩).1
      = [⟨0, "other"⟩] :=
  ⟨by decide,
   (teardown_detaches_exactly_its_subtree [⟨0, "other"⟩] ⟨1, "card"⟩ (by decide)).2.1⟩

/-- C10: the selection-token fallback is decided by truthiness, not mere
presence: a truthy `id` wins, a falsy `id` (including `""` and `0`) defers to
a truthy `name`, and when both are falsy the token is the null sentinel — in
particular two empty strings yield `null`, never `""`, and that is what both
signals carry. -/
theorem selection_token_decided_by_truthiness (m : CardData) :
    (truthy m.id = true → selectionToken m = m.id) ∧
    (truthy m.id = false → truthy m.name = true → selectionToken m = m.name) ∧
    (truthy m.id = false → truthy m.name = false → selectionToken m = JSValue.null) ∧
    selectionToken { id := JSValue.str "", name := JSValue.str "nm" } = JSValue.str "nm" ∧
    selectionToken { id := JSValue.num 0, name := JSValue.str "nm" } = JSValue.str "nm" ∧
    selectionToken { id := JSValue.str "", name := JSValue.str "" } = JSValue.null ∧
    handleSelect { id := JSValue.str "", name := JSValue.str "" } =
      [Emission.stateValue "selected" JSValue.null,
       Emission.triggerValue "clicked" JSValue.null] := by
  refine ⟨?_, ?_, ?_, by with_unfolding_all rfl, by with_unfolding_all rfl,
    by with_unfolding_all rfl, by with_unfolding_all rfl⟩
  · intro ha; simp [selectionToken, jsOr, ha]
  · intro ha hb; simp [selectionToken, jsOr, ha, hb]
  · intro ha hb; simp [selectionToken, jsOr, ha, hb]

/-- Concrete instance of `selection_token_decided_by_truthiness`: an
empty-string id is skipped in favour of the name. -/
theorem selection_token_decided_by_truthiness_witness :
    truthy (JSValue.str "") = false ∧ truthy (JSValue.str "nm") = true ∧
    selectionToken { id := JSValue.str "", name := JSValue.str "nm" } = JSValue.str "nm" :=
  ⟨by decide, by decide,
   (selection_token_decided_by_truthiness
      { id := JSValue.str "", name := JSValue.str "nm" }).2.1 (by decide) (by decide)⟩
